import Mathlib

/-
Verification development for the h5utils repository.

The repository has two modules:

* project_path.py: find_project_root walks from the current working directory
  upward through parent directories looking for a marker file; gitdir asks git
  for the working tree top level and falls back to find_project_root; datadir
  and plotsdir derive data/plots subdirectories from the resolved root,
  creating them on demand.
* h5_interfaces.py: write_data_and_label writes an array and a label attribute
  into an HDF5 dataset, setup_hdf5_file creates the file and dataset, and
  print_hdf5_structure renders the group tree as text.

Modelling conventions of the shallow embedding:

* A filesystem path is a list of components from the root; the empty list is
  the root directory itself, and os.path.dirname is List.dropLast.
* The filesystem is a set of existing entry paths (files and directories are
  both entries); marker in os.listdir(d) is membership of d ++ marker in the
  entry set, and os.makedirs adds every missing component prefix.
* The git query of gitdir is an environment parameter with three outcomes
  mirroring the two caught exception types: success with a root, or the
  InvalidGitRepositoryError / NoSuchPathError conditions that the code catches.
* An HDF5 file is an association list from names to items (datasets or nested
  groups); the h5py calls used by the code are modelled by their documented
  behaviour: require_dataset creates a missing dataset (zero filled, given
  shape, chunks and dtype) and checks shape and dtype conformance of an
  existing one; file lookup of a missing dataset name is a KeyError; a full
  write (dataset[...] = arr) replaces the content when the shapes agree and is
  an error otherwise; attribute assignment replaces the attribute value.
* Array elements are float32 bit patterns (Nat); the arrays the claims
  quantify over are float32 representable, so storing them is exact.
  Label arrays are lists of byte strings, represented by their decoded text,
  so the UTF-8 encode/decode pair of the external codec is the identity here.
* Raised exceptions are explicit error values; functions that mutate the
  filesystem return the final state alongside the result.
-/

/- ===== Path resolver: project_path.py ===== -/

/-- Filesystem model: the set of existing entry paths, each an absolute path
given by its list of components. -/
structure FS where
  entries : List (List String)
deriving DecidableEq

/-- The check `marker in os.listdir(d)`: directory d has a child named
marker. -/
def hasMarker (fs : FS) (d : List String) (marker : String) : Prop :=
  (d ++ [marker]) ∈ fs.entries

instance (fs : FS) (d : List String) (marker : String) :
    Decidable (hasMarker fs d marker) := by
  unfold hasMarker; infer_instance

/-- find_project_root of project_path.py: starting at the current directory,
loop while the directory is not the filesystem root (the root is the fixed
point of dirname); return the first directory with a child named marker, and
report failure (FileNotFoundError, here none) when the loop ends. The root
itself is never examined, exactly as in the source loop. -/
def find_project_root (fs : FS) (marker : String) (cur : List String) :
    Option (List String) :=
  if _h : cur = [] then none
  else if hasMarker fs cur marker then some cur
  else find_project_root fs marker cur.dropLast
termination_by cur.length
decreasing_by
  have : cur.length ≠ 0 := by simpa using _h
  simp [List.length_dropLast]; omega

/-- p is an ancestor directory of cur; cur itself and the root count. -/
def ancestor (p cur : List String) : Prop := cur.take p.length = p

instance (p cur : List String) : Decidable (ancestor p cur) := by
  unfold ancestor; infer_instance

theorem ancestor_refl (cur : List String) : ancestor cur cur := by
  simp [ancestor]

theorem ancestor_nil (p : List String) (h : ancestor p []) : p = [] := by
  simpa [ancestor] using h.symm

theorem ancestor_length_le (p cur : List String) (h : ancestor p cur) :
    p.length ≤ cur.length := by
  have h2 := congrArg List.length h
  simp [List.length_take] at h2
  omega

theorem ancestor_eq_of_length (p cur : List String) (h : ancestor p cur)
    (hl : cur.length ≤ p.length) : p = cur := by
  have h3 := ancestor_length_le p cur h
  have : p.length = cur.length := Nat.le_antisymm h3 hl
  unfold ancestor at h
  rw [this, List.take_length] at h
  exact h.symm

theorem ancestor_dropLast_iff (p cur : List String) :
    ancestor p cur.dropLast ↔ ancestor p cur ∧ p.length ≤ cur.length - 1 := by
  unfold ancestor
  rw [List.dropLast_eq_take, List.take_take]
  constructor
  · intro h
    have h2 := congrArg List.length h
    simp [List.length_take] at h2
    have hle : p.length ≤ cur.length - 1 := by omega
    have : min p.length (cur.length - 1) = p.length := by omega
    rw [this] at h
    exact ⟨h, hle⟩
  · intro ⟨h, hle⟩
    have : min p.length (cur.length - 1) = p.length := by omega
    rw [this]
    exact h

theorem ancestor_of_dropLast (p cur : List String) (h : ancestor p cur.dropLast) :
    ancestor p cur :=
  ((ancestor_dropLast_iff p cur).mp h).1

/-- Soundness of the upward walk: a returned root is a nonempty ancestor that
has the marker, and no strictly deeper ancestor has it. -/
theorem find_sound (fs : FS) (marker : String) (cur : List String) (r : List String)
    (h : find_project_root fs marker cur = some r) :
    ancestor r cur ∧ r ≠ [] ∧ hasMarker fs r marker ∧
      (∀ p, ancestor p cur → r.length < p.length → ¬ hasMarker fs p marker) := by
  induction cur using find_project_root.induct fs marker with
  | case1 =>
    simp [find_project_root] at h
  | case2 x hnil hmark =>
    rw [find_project_root] at h
    simp [hnil, hmark] at h
    subst h
    refine ⟨ancestor_refl x, hnil, hmark, ?_⟩
    intro p hp hlen
    have := ancestor_length_le p x hp
    omega
  | case3 x hnil hmark ih =>
    rw [find_project_root] at h
    simp [hnil, hmark] at h
    obtain ⟨h1, h2, h3, h4⟩ := ih h
    refine ⟨ancestor_of_dropLast r x h1, h2, h3, ?_⟩
    intro p hp hlen
    by_cases hpx : p = x
    · subst hpx; exact hmark
    · have hlt : p.length < x.length := by
        have := ancestor_length_le p x hp
        rcases Nat.lt_or_ge p.length x.length with h5 | h5
        · exact h5
        · exact absurd (ancestor_eq_of_length p x hp h5) hpx
      have : ancestor p x.dropLast :=
        (ancestor_dropLast_iff p x).mpr ⟨hp, by omega⟩
      exact h4 p this hlen

/-- Completeness of the upward walk: if some nonempty ancestor has the marker,
the walk succeeds. -/
theorem find_complete (fs : FS) (marker : String) (cur : List String) (p : List String)
    (hp : ancestor p cur) (hne : p ≠ []) (hm : hasMarker fs p marker) :
    (find_project_root fs marker cur).isSome := by
  induction cur using find_project_root.induct fs marker with
  | case1 =>
    exact absurd (ancestor_nil p hp) hne
  | case2 x hnil hmark =>
    rw [find_project_root]
    simp [hnil, hmark]
  | case3 x hnil hmark ih =>
    rw [find_project_root]
    simp [hnil, hmark]
    have hpx : p ≠ x := by
      intro he; subst he; exact hmark hm
    have hlt : p.length < x.length := by
      have := ancestor_length_le p x hp
      rcases Nat.lt_or_ge p.length x.length with h5 | h5
      · exact h5
      · exact absurd (ancestor_eq_of_length p x hp h5) hpx
    have : ancestor p x.dropLast :=
      (ancestor_dropLast_iff p x).mpr ⟨hp, by omega⟩
    exact ih this

/-- The walk fails exactly when no nonempty ancestor (the directories it
examines) has the marker. -/
theorem find_none_iff (fs : FS) (marker : String) (cur : List String) :
    find_project_root fs marker cur = none ↔
      ∀ p, ancestor p cur → p ≠ [] → ¬ hasMarker fs p marker := by
  constructor
  · intro h p hp hne hm
    have := find_complete fs marker cur p hp hne hm
    rw [h] at this
    simp at this
  · intro h
    cases he : find_project_root fs marker cur with
    | none => rfl
    | some r =>
      obtain ⟨h1, h2, h3, _⟩ := find_sound fs marker cur r he
      exact absurd h3 (h r h1 h2)

/-- Outcome of the git query in gitdir: either the top-level directory, or one
of the two exception conditions the source catches. -/
inductive GitOutcome where
  | ok (root : List String)
  | invalidRepo
  | noSuchPath
deriving DecidableEq

/-- gitdir of project_path.py: return the git top level on success; on
InvalidGitRepositoryError or NoSuchPathError fall back to find_project_root
with its default marker, which is the literal setup.cfg. -/
def gitdir (fs : FS) (cwd : List String) (g : GitOutcome) : Option (List String) :=
  match g with
  | .ok r => some r
  | .invalidRepo => find_project_root fs "setup.cfg" cwd
  | .noSuchPath => find_project_root fs "setup.cfg" cwd

/-- All nonempty component prefixes of a path, shortest first: the directories
os.makedirs creates when none of them exists. -/
def pathInits (p : List String) : List (List String) :=
  (List.range p.length).map (fun k => p.take (k + 1))

/-- os.makedirs: add the path and any missing intermediate directories to the
filesystem. -/
def makedirs (fs : FS) (p : List String) : FS :=
  ⟨fs.entries ++ (pathInits p).filter (fun q => decide (q ∉ fs.entries))⟩

/-- datadir of project_path.py: join the resolved root with data/ and the
given name, create the directory when it does not exist and mkdir is set, and
return the path together with the resulting filesystem. -/
def datadir (fs : FS) (cwd : List String) (g : GitOutcome) (name : String)
    (mkdir : Bool) : Option (List String × FS) :=
  match gitdir fs cwd g with
  | none => none
  | some root =>
      let path := root ++ ["data", name]
      if path ∉ fs.entries ∧ mkdir = true then some (path, makedirs fs path)
      else some (path, fs)

/-- plotsdir of project_path.py: same as datadir with the plots category. -/
def plotsdir (fs : FS) (cwd : List String) (g : GitOutcome) (name : String)
    (mkdir : Bool) : Option (List String × FS) :=
  match gitdir fs cwd g with
  | none => none
  | some root =>
      let path := root ++ ["plots", name]
      if path ∉ fs.entries ∧ mkdir = true then some (path, makedirs fs path)
      else some (path, fs)

theorem mem_makedirs (fs : FS) (p q : List String) :
    q ∈ (makedirs fs p).entries ↔ q ∈ fs.entries ∨ q ∈ pathInits p := by
  simp [makedirs, List.mem_filter]
  tauto

theorem self_mem_pathInits (p : List String) (h : p ≠ []) : p ∈ pathInits p := by
  simp only [pathInits, List.mem_map, List.mem_range]
  refine ⟨p.length - 1, ?_, ?_⟩
  · have : p.length ≠ 0 := by simpa using h
    omega
  · have : p.length ≠ 0 := by simpa using h
    have h2 : p.length - 1 + 1 = p.length := by omega
    rw [h2, List.take_length]

/- ===== Container writer and structure printer: h5_interfaces.py ===== -/

/-- An HDF5 dataset: fixed shape, chunk shape and element type, flat content
of float32 bit patterns, and named attributes whose values are byte-string
arrays represented by their decoded text. -/
structure Dataset where
  shape : List Nat
  chunks : List Nat
  dtype : String
  data : List Nat
  attrs : List (String × List String)
deriving DecidableEq

/-- An item of an HDF5 group: a dataset or a nested group. -/
inductive H5Item where
  | dset (d : Dataset)
  | group (children : List (String × H5Item))

/-- An HDF5 group: name-keyed children in insertion order. -/
abbrev H5Group := List (String × H5Item)

/-- The on-disk state the writer touches: HDF5 files by path. -/
structure H5State where
  files : List (String × H5Group)

/-- Error conditions of the modelled h5py calls. -/
inductive H5Err where
  | keyError
  | shapeMismatch
  | dtypeMismatch
  | notADataset
  | fileNotFound
deriving DecidableEq

/-- Association list lookup by name, first binding wins. -/
def lookupA {β : Type} (k : String) : List (String × β) → Option β
  | [] => none
  | (k2, v) :: rest => if k2 = k then some v else lookupA k rest

/-- Association list update: replace the first binding of the name, or append
a new binding at the end (insertion order, as h5py keeps it). -/
def setA {β : Type} (k : String) (v : β) : List (String × β) → List (String × β)
  | [] => [(k, v)]
  | (k2, v2) :: rest => if k2 = k then (k2, v) :: rest else (k2, v2) :: setA k v rest

theorem lookupA_setA_self {β : Type} (k : String) (v : β) (l : List (String × β)) :
    lookupA k (setA k v l) = some v := by
  induction l with
  | nil => simp [lookupA, setA]
  | cons hd tl ih =>
      obtain ⟨k2, v2⟩ := hd
      by_cases h : k2 = k
      · simp [lookupA, setA, h]
      · simp [lookupA, setA, h, ih]

theorem setA_self_of_lookupA {β : Type} (k : String) (v : β) (l : List (String × β))
    (h : lookupA k l = some v) : setA k v l = l := by
  induction l with
  | nil => simp [lookupA] at h
  | cons hd tl ih =>
      obtain ⟨k2, v2⟩ := hd
      by_cases h2 : k2 = k
      · simp [lookupA, h2] at h
        simp [setA, h2, h]
      · simp [lookupA, h2] at h
        simp [setA, h2, ih h]

/-- The dataset require_dataset creates: given shape, one leading-axis slice
per chunk, float32 elements, zero filled, no attributes. -/
def newDataset (shape : List Nat) : Dataset :=
  ⟨shape, 1 :: shape.drop 1, "float32", List.replicate shape.prod 0, []⟩

/-- h5py require_dataset: create the dataset when the name is unbound;
otherwise check shape and dtype conformance of the existing dataset and fail
on mismatch (chunks are not compared for an existing dataset). -/
def require_dataset (g : H5Group) (name : String) (shape : List Nat)
    (chunks : List Nat) (dtype : String) : Except H5Err H5Group :=
  match lookupA name g with
  | none => .ok (setA name (.dset ⟨shape, chunks, dtype, List.replicate shape.prod 0, []⟩) g)
  | some (.dset d) =>
      if d.shape ≠ shape then .error .shapeMismatch
      else if d.dtype ≠ dtype then .error .dtypeMismatch
      else .ok g
  | some (.group _) => .error .notADataset

/-- setup_hdf5_file of h5_interfaces.py: open the file in append mode
(creating an empty file when absent) and require a dataset of the given shape,
chunked as one unit along the leading axis, with dtype float32. -/
def setup_hdf5_file (s : H5State) (file_path : String) (dataset_name : String)
    (shape : List Nat) : Except H5Err H5State :=
  let g := (lookupA file_path s.files).getD []
  match require_dataset g dataset_name shape (1 :: shape.drop 1) "float32" with
  | .ok g2 => .ok ⟨setA file_path g2 s.files⟩
  | .error e => .error e

/-- A numeric array: shape and flat float32-bit-pattern content. -/
structure NpArray where
  shape : List Nat
  data : List Nat
deriving DecidableEq

/-- write_data_and_label of h5_interfaces.py: when no file exists at the path,
first run setup_hdf5_file with the shape of the data array; then open the file
read/write (an error when still absent), look up the dataset (KeyError when
the name is unbound), overwrite its full content with the data array (an error
from the library when the shapes differ), and set its label attribute. The
final on-disk state is returned with the outcome. -/
def write_data_and_label (s : H5State) (file_path : String) (dataset_name : String)
    (data_array : NpArray) (label_array : List String) :
    Except H5Err Unit × H5State :=
  let setupRes : Except H5Err H5State :=
    if (lookupA file_path s.files).isNone then
      setup_hdf5_file s file_path dataset_name data_array.shape
    else .ok s
  match setupRes with
  | .error e => (.error e, s)
  | .ok s1 =>
      match lookupA file_path s1.files with
      | none => (.error .fileNotFound, s1)
      | some g =>
          match lookupA dataset_name g with
          | none => (.error .keyError, s1)
          | some (.group _) => (.error .notADataset, s1)
          | some (.dset d) =>
              if data_array.shape = d.shape then
                let d2 : Dataset :=
                  { d with data := data_array.data,
                           attrs := setA "label" label_array d.attrs }
                (.ok (), ⟨setA file_path (setA dataset_name (.dset d2) g) s1.files⟩)
              else (.error .shapeMismatch, s1)

/-- Reading an item of a file, as file[name]. -/
def getItem (s : H5State) (fp : String) (name : String) : Option H5Item :=
  (lookupA fp s.files).bind (fun g => lookupA name g)

/-- Reading a dataset of a file; none when the file, the name, or the dataset
kind is missing. -/
def getDataset (s : H5State) (fp : String) (name : String) : Option Dataset :=
  match getItem s fp name with
  | some (.dset d) => some d
  | _ => none

/-- Reading back the full content of a dataset. -/
def readData (s : H5State) (fp : String) (name : String) : Option (List Nat) :=
  (getDataset s fp name).map Dataset.data

/-- Reading back an attribute of a dataset. -/
def readAttr (s : H5State) (fp : String) (name : String) (attr : String) :
    Option (List String) :=
  (getDataset s fp name).bind (fun d => lookupA attr d.attrs)

theorem write_fresh (s : H5State) (fp name : String) (arr : NpArray)
    (label : List String) (h : lookupA fp s.files = none) :
    write_data_and_label s fp name arr label =
      (.ok (), ⟨setA fp [(name, .dset ⟨arr.shape, 1 :: arr.shape.drop 1, "float32",
        arr.data, [("label", label)]⟩)] (setA fp [(name, .dset (newDataset arr.shape))] s.files)⟩) := by
  simp only [write_data_and_label, setup_hdf5_file, require_dataset, h, Option.isNone_none,
    if_true, Option.getD_none, lookupA, newDataset]
  simp [lookupA_setA_self, lookupA, setA]

theorem getDataset_write_fresh (s : H5State) (fp name : String) (arr : NpArray)
    (label : List String) (h : lookupA fp s.files = none) :
    getDataset (write_data_and_label s fp name arr label).2 fp name =
      some ⟨arr.shape, 1 :: arr.shape.drop 1, "float32", arr.data, [("label", label)]⟩ := by
  rw [write_fresh s fp name arr label h]
  simp [getDataset, getItem, lookupA_setA_self, lookupA]

theorem write_existing (s : H5State) (fp name : String) (arr : NpArray)
    (label : List String) (g : H5Group) (d : Dataset)
    (hf : lookupA fp s.files = some g) (hd : lookupA name g = some (.dset d))
    (hs : arr.shape = d.shape) :
    write_data_and_label s fp name arr label =
      (.ok (),
        ⟨setA fp
          (setA name
            (.dset { d with data := arr.data, attrs := setA "label" label d.attrs }) g)
          s.files⟩) := by
  simp [write_data_and_label, hf, hd, hs]

theorem write_mismatch (s : H5State) (fp name : String) (arr : NpArray)
    (label : List String) (g : H5Group) (d : Dataset)
    (hf : lookupA fp s.files = some g) (hd : lookupA name g = some (.dset d))
    (hs : arr.shape ≠ d.shape) :
    write_data_and_label s fp name arr label = (.error .shapeMismatch, s) := by
  simp [write_data_and_label, hf, hd, hs]

theorem write_keyerror (s : H5State) (fp name : String) (arr : NpArray)
    (label : List String) (g : H5Group)
    (hf : lookupA fp s.files = some g) (hd : lookupA name g = none) :
    write_data_and_label s fp name arr label = (.error .keyError, s) := by
  simp [write_data_and_label, hf, hd]

theorem getDataset_iff (s : H5State) (fp name : String) (d : Dataset) :
    getDataset s fp name = some d ↔
      ∃ g, lookupA fp s.files = some g ∧ lookupA name g = some (.dset d) := by
  unfold getDataset getItem
  cases hf : lookupA fp s.files with
  | none => simp
  | some g =>
      cases hd : lookupA name g with
      | none => simp [hd]
      | some it =>
          cases it with
          | dset d2 => simp [hd]
          | group cs => simp [hd]

/- Structure printer. Printed output is modelled as the list of printed
lines. -/

/-- A run of n spaces, as in indentation by string repetition. -/
def sp (n : Nat) : String := String.mk (List.replicate n ' ')

/-- Python tuple repr of a shape, with the trailing comma of 1-tuples. -/
def shapeTupleRepr (shape : List Nat) : String :=
  match shape with
  | [] => "()"
  | [n] => "(" ++ toString n ++ ",)"
  | _ => "(" ++ String.intercalate ", " (shape.map toString) ++ ")"

/-- Numpy dtype repr of a byte-string array: fixed width of the longest
element. -/
def bytesDtype (v : List String) : String :=
  "|S" ++ toString (v.foldl (fun m s2 => max m s2.utf8ByteSize) 0)

/-- Python repr of one decoded string, in single quotes. -/
def quoteStr (s2 : String) : String :=
  (Char.ofNat 39).toString ++ s2 ++ (Char.ofNat 39).toString

/-- Python repr of the list of decoded attribute values. -/
def pyListRepr (v : List String) : String :=
  "[" ++ String.intercalate ", " (v.map quoteStr) ++ "]"

/-- The attribute loop of print_hdf5_structure: for each attribute print its
name, shape and dtype, and print its decoded values when it has fewer than 10
elements. -/
def attrLines (indent : Nat) : List (String × List String) → List String
  | [] => []
  | (attr_name, attr_value) :: rest =>
      (sp (indent + 4) ++ attr_name ++ ": (shape=" ++ shapeTupleRepr [attr_value.length]
          ++ ", dtype=" ++ bytesDtype attr_value ++ ")")
        :: ((if attr_value.length < 10 then
              [sp (indent + 4) ++ "values: " ++ pyListRepr attr_value]
            else []) ++ attrLines indent rest)

/-- The dataset branch of print_hdf5_structure: dataset header, name with
shape and dtype, and the attribute block when attributes exist. -/
def datasetLines (indent : Nat) (name : String) (d : Dataset) : List String :=
  (sp indent ++ "dataset:")
    :: (sp (indent + 4) ++ name ++ " (shape: " ++ shapeTupleRepr d.shape
        ++ ", dtype: " ++ d.dtype ++ ")")
    :: (if d.attrs.length > 0 then (sp indent ++ "attributes:") :: attrLines indent d.attrs
        else [])

/-- The iteration of print_hdf5_structure over group items: group children
recurse with indent + 2 (the recursive call reprints the banner line, as in
the source), datasets print their block. -/
def itemLines (indent : Nat) : List (String × H5Item) → List String
  | [] => []
  | (name, .group cs) :: rest =>
      ((sp indent ++ "group: " ++ name ++ "/")
        :: "HDF5 File Structure:" :: itemLines (indent + 2) cs) ++ itemLines indent rest
  | (name, .dset d) :: rest => datasetLines indent name d ++ itemLines indent rest

/-- print_hdf5_structure of h5_interfaces.py: banner line, then the items of
the group. The source default for indent is 2. -/
def print_hdf5_structure (group : List (String × H5Item)) (indent : Nat) :
    List String :=
  "HDF5 File Structure:" :: itemLines indent group

theorem attrLines_flatMap (indent : Nat) (attrs : List (String × List String)) :
    attrLines indent attrs = attrs.flatMap (fun a =>
      (sp (indent + 4) ++ a.1 ++ ": (shape=" ++ shapeTupleRepr [a.2.length]
          ++ ", dtype=" ++ bytesDtype a.2 ++ ")")
        :: (if a.2.length < 10 then
              [sp (indent + 4) ++ "values: " ++ pyListRepr a.2]
            else [])) := by
  induction attrs with
  | nil => simp [attrLines]
  | cons hd tl ih =>
      obtain ⟨an, av⟩ := hd
      simp [attrLines, ih]

/- ===== Claims ===== -/

/-- Claim C1, counterexample: the claim says a marker present in ANY ancestor
of the working directory (the root included, being an ancestor of every
directory) is found. With the marker file present only in the filesystem root
and the working directory one level below, an ancestor with the marker exists
but find_project_root raises the not-found error: the loop guard stops at the
root before examining it. -/
theorem claim_C1_counterexample :
    ancestor [] ["home"] ∧ hasMarker ⟨[["setup.cfg"]]⟩ [] "setup.cfg" ∧
      find_project_root ⟨[["setup.cfg"]]⟩ "setup.cfg" ["home"] = none := by
  refine ⟨by decide, by decide, ?_⟩
  simp [find_project_root, hasMarker]

/-- Claim C1, amended: for every marker present in some nonempty (non-root)
ancestor of the working directory, find_project_root returns the nearest such
ancestor: an ancestor with the marker, than which no deeper ancestor with the
marker exists. The filesystem root itself is excluded, because the walk stops
at it without examining it. -/
theorem claim_C1 (fs : FS) (marker : String) (cwd p0 : List String)
    (hp0 : ancestor p0 cwd) (hne : p0 ≠ []) (hm : hasMarker fs p0 marker) :
    ∃ r, find_project_root fs marker cwd = some r ∧ ancestor r cwd ∧ r ≠ [] ∧
      hasMarker fs r marker ∧
      ∀ p, ancestor p cwd → hasMarker fs p marker → p.length ≤ r.length := by
  have hs := find_complete fs marker cwd p0 hp0 hne hm
  cases he : find_project_root fs marker cwd with
  | none => rw [he] at hs; simp at hs
  | some r =>
      obtain ⟨h1, h2, h3, h4⟩ := find_sound fs marker cwd r he
      refine ⟨r, rfl, h1, h2, h3, fun p hp hpm => ?_⟩
      by_contra hlen
      exact h4 p hp (by omega) hpm

/-- Claim C1, witness: with the marker in the directory proj and the working
directory proj/sub, the amended claim finds proj as the nearest marked
ancestor. -/
theorem claim_C1_witness :
    ∃ r, find_project_root ⟨[["proj", "setup.cfg"]]⟩ "setup.cfg" ["proj", "sub"] = some r ∧
      ancestor r ["proj", "sub"] ∧ r ≠ [] ∧
      hasMarker ⟨[["proj", "setup.cfg"]]⟩ r "setup.cfg" ∧
      ∀ p, ancestor p ["proj", "sub"] →
        hasMarker ⟨[["proj", "setup.cfg"]]⟩ p "setup.cfg" → p.length ≤ r.length :=
  claim_C1 ⟨[["proj", "setup.cfg"]]⟩ "setup.cfg" ["proj", "sub"] ["proj"]
    (by decide) (by decide) (by decide)

/-- Claim C2: when the marker is present in no directory from the working
directory up to and including the root, find_project_root reports the
not-found error; and it reports it exactly when the upward walk (which
examines every nonempty ancestor and stops at the root) finds no match. -/
theorem claim_C2 (fs : FS) (marker : String) (cwd : List String) :
    ((∀ p, ancestor p cwd → ¬ hasMarker fs p marker) →
        find_project_root fs marker cwd = none) ∧
    (find_project_root fs marker cwd = none ↔
        ∀ p, ancestor p cwd → p ≠ [] → ¬ hasMarker fs p marker) := by
  refine ⟨fun h => (find_none_iff fs marker cwd).mpr (fun p hp _ => h p hp),
    find_none_iff fs marker cwd⟩

/-- Claim C2, witness: on an empty filesystem no marker is anywhere, and the
walk from the directory home reports the not-found error. -/
theorem claim_C2_witness : find_project_root ⟨[]⟩ "setup.cfg" ["home"] = none :=
  (claim_C2 ⟨[]⟩ "setup.cfg" ["home"]).1 (fun p _ hm => by simp [hasMarker] at hm)

/-- Claim C3: gitdir is a two-tier fallback chain. On git success it returns
the top-level directory; exactly on the two caught failure conditions it
returns the result of find_project_root with the default marker; and it fails
only when the git query failed and the marker fallback also failed. -/
theorem claim_C3 (fs : FS) (cwd : List String) (g : GitOutcome) :
    (∀ r, g = .ok r → gitdir fs cwd g = some r) ∧
    ((g = .invalidRepo ∨ g = .noSuchPath) →
      gitdir fs cwd g = find_project_root fs "setup.cfg" cwd) ∧
    (gitdir fs cwd g = none ↔
      ((g = .invalidRepo ∨ g = .noSuchPath) ∧
        find_project_root fs "setup.cfg" cwd = none)) := by
  cases g <;> simp [gitdir]

/-- Claim C3, witness: on the not-a-repository condition gitdir equals the
marker-based fallback. -/
theorem claim_C3_witness :
    gitdir ⟨[]⟩ [] .invalidRepo = find_project_root ⟨[]⟩ "setup.cfg" [] :=
  (claim_C3 ⟨[]⟩ [] .invalidRepo).2.1 (Or.inl rfl)

/-- Concrete filesystem for the C4 counterexample: a project root proj with
the marker file, a data directory and a working directory proj/data/sub. -/
def cexFS : FS :=
  ⟨[["proj"], ["proj", "setup.cfg"], ["proj", "data"], ["proj", "data", "sub"]]⟩

/-- Working directory of the C4 counterexample. -/
def cexCwd : List String := ["proj", "data", "sub"]

/-- Filesystem after the first datadir call of the C4 counterexample. -/
def cexFS2 : FS := makedirs cexFS ["proj", "data", "setup.cfg"]

theorem cexFindEval1 : find_project_root cexFS "setup.cfg" cexCwd = some ["proj"] := by
  simp [find_project_root, hasMarker, cexFS, cexCwd]

theorem cexDatadirEval1 : datadir cexFS cexCwd .invalidRepo "setup.cfg" true =
    some (["proj", "data", "setup.cfg"], cexFS2) := by
  rw [datadir, gitdir, cexFindEval1]
  decide

theorem cexFindEval2 : find_project_root cexFS2 "setup.cfg" cexCwd =
    some ["proj", "data"] := by
  simp [find_project_root, hasMarker, cexFS2, cexFS, cexCwd, makedirs, pathInits]
  decide

/-- Claim C4, counterexample: with no git repository, the marker only at proj,
the working directory proj/data/sub and the name equal to the marker filename,
the first datadir call resolves the root proj and creates the directory
proj/data/setup.cfg; the second identical call then finds the marker test
satisfied at proj/data (the created directory is a listdir entry like any
file), resolves a different root, returns a different path and creates yet
another directory. Both the same-path part and the second-call-is-a-no-op part
of the claim fail. -/
theorem claim_C4_counterexample :
    datadir cexFS cexCwd .invalidRepo "setup.cfg" true =
      some (["proj", "data", "setup.cfg"], cexFS2) ∧
    datadir cexFS2 cexCwd .invalidRepo "setup.cfg" true =
      some (["proj", "data", "data", "setup.cfg"],
        makedirs cexFS2 ["proj", "data", "data", "setup.cfg"]) ∧
    (["proj", "data", "setup.cfg"] : List String) ≠
      ["proj", "data", "data", "setup.cfg"] ∧
    makedirs cexFS2 ["proj", "data", "data", "setup.cfg"] ≠ cexFS2 := by
  refine ⟨cexDatadirEval1, ?_, by decide, by decide⟩
  rw [datadir, gitdir, cexFindEval2]
  decide

/-- Claim C4, amended: provided the two calls resolve the same project root
(formalised as gitdir returning the same root on the filesystem before the
first call and on the one it produces, which in particular always happens
when the version-control query succeeds), datadir with identical arguments
returns the same path both times, the directory at that path exists after the
first call, and the second call leaves the filesystem unchanged; likewise for
plotsdir. Without that proviso the property fails, because the directory
created by the first call can itself satisfy the marker test of the fallback
walk and shift the root resolved by the second call. -/
theorem claim_C4 (fs : FS) (cwd : List String) (g : GitOutcome) (name : String)
    (r : List String) :
    (∀ p1 fs1, gitdir fs cwd g = some r →
      datadir fs cwd g name true = some (p1, fs1) →
      gitdir fs1 cwd g = some r →
      p1 ∈ fs1.entries ∧ datadir fs1 cwd g name true = some (p1, fs1)) ∧
    (∀ p1 fs1, gitdir fs cwd g = some r →
      plotsdir fs cwd g name true = some (p1, fs1) →
      gitdir fs1 cwd g = some r →
      p1 ∈ fs1.entries ∧ plotsdir fs1 cwd g name true = some (p1, fs1)) := by
  constructor
  · intro p1 fs1 hg1 h hg2
    by_cases hmem : (r ++ ["data", name]) ∈ fs.entries
    · simp [datadir, hg1, hmem] at h
      obtain ⟨h1, h2⟩ := h
      subst h1; subst h2
      refine ⟨hmem, ?_⟩
      simp [datadir, hg2, hmem]
    · simp [datadir, hg1, hmem] at h
      obtain ⟨h1, h2⟩ := h
      subst h1; subst h2
      have hself : (r ++ ["data", name]) ∈ (makedirs fs (r ++ ["data", name])).entries :=
        (mem_makedirs fs _ _).mpr (Or.inr (self_mem_pathInits _ (by simp)))
      refine ⟨hself, ?_⟩
      simp [datadir, hg2, hself]
  · intro p1 fs1 hg1 h hg2
    by_cases hmem : (r ++ ["plots", name]) ∈ fs.entries
    · simp [plotsdir, hg1, hmem] at h
      obtain ⟨h1, h2⟩ := h
      subst h1; subst h2
      refine ⟨hmem, ?_⟩
      simp [plotsdir, hg2, hmem]
    · simp [plotsdir, hg1, hmem] at h
      obtain ⟨h1, h2⟩ := h
      subst h1; subst h2
      have hself : (r ++ ["plots", name]) ∈ (makedirs fs (r ++ ["plots", name])).entries :=
        (mem_makedirs fs _ _).mpr (Or.inr (self_mem_pathInits _ (by simp)))
      refine ⟨hself, ?_⟩
      simp [plotsdir, hg2, hself]

/-- Concrete filesystem for the C4 witness: the marker at proj, the working
directory proj/sub, no git repository. -/
def c4wFS : FS := ⟨[["proj"], ["proj", "setup.cfg"], ["proj", "sub"]]⟩

/-- Working directory of the C4 witness. -/
def c4wCwd : List String := ["proj", "sub"]

/-- Filesystem after the first datadir call of the C4 witness. -/
def c4wFS2 : FS := makedirs c4wFS ["proj", "data", "x"]

theorem c4wGit1 : gitdir c4wFS c4wCwd .invalidRepo = some ["proj"] := by
  simp [gitdir, find_project_root, hasMarker, c4wFS, c4wCwd]

theorem c4wDatadirEval1 : datadir c4wFS c4wCwd .invalidRepo "x" true =
    some (["proj", "data", "x"], c4wFS2) := by
  rw [datadir, c4wGit1]
  decide

theorem c4wGit2 : gitdir c4wFS2 c4wCwd .invalidRepo = some ["proj"] := by
  simp [gitdir, find_project_root, hasMarker, c4wFS2, c4wFS, c4wCwd, makedirs, pathInits]
  decide

/-- Claim C4, witness: in the fallback regime (git failing, the name distinct
from the marker filename) both calls resolve the root proj; the first datadir
call creates proj/data/x, the path exists afterwards, and the second call
returns the same path with the filesystem unchanged. -/
theorem claim_C4_witness :
    ["proj", "data", "x"] ∈ c4wFS2.entries ∧
    datadir c4wFS2 c4wCwd .invalidRepo "x" true = some (["proj", "data", "x"], c4wFS2) :=
  (claim_C4 c4wFS c4wCwd .invalidRepo "x" ["proj"]).1 ["proj", "data", "x"] c4wFS2
    c4wGit1 c4wDatadirEval1 c4wGit2

/-- Claim C5: when no file exists at the path, write_data_and_label creates
the file and a dataset of the shape of the data array, then overwrites the
dataset content with the data array and sets its label attribute; when the
file and the dataset exist and the shapes match, it fully replaces the
content and the label attribute of the existing dataset. The outcome is ok
and the whole effect is the returned on-disk state. -/
theorem claim_C5 (s : H5State) (fp name : String) (arr : NpArray) (label : List String) :
    (lookupA fp s.files = none →
      (write_data_and_label s fp name arr label).1 = .ok () ∧
      getDataset (write_data_and_label s fp name arr label).2 fp name =
        some ⟨arr.shape, 1 :: arr.shape.drop 1, "float32", arr.data, [("label", label)]⟩) ∧
    (∀ g d, lookupA fp s.files = some g → lookupA name g = some (.dset d) →
      arr.shape = d.shape →
      (write_data_and_label s fp name arr label).1 = .ok () ∧
      getDataset (write_data_and_label s fp name arr label).2 fp name =
        some { d with data := arr.data, attrs := setA "label" label d.attrs }) := by
  constructor
  · intro h
    refine ⟨?_, getDataset_write_fresh s fp name arr label h⟩
    rw [write_fresh s fp name arr label h]
  · intro g d hf hd hs
    rw [write_existing s fp name arr label g d hf hd hs]
    constructor
    · rfl
    · simp [getDataset, getItem, lookupA_setA_self]

/-- Claim C5, witness: writing a fresh file stores the array, the derived
chunking and the label. -/
theorem claim_C5_witness :
    (write_data_and_label ⟨[]⟩ "f.h5" "image" ⟨[1, 2], [5, 6]⟩ ["x"]).1 = .ok () ∧
    getDataset (write_data_and_label ⟨[]⟩ "f.h5" "image" ⟨[1, 2], [5, 6]⟩ ["x"]).2
        "f.h5" "image" =
      some ⟨[1, 2], [1, 2], "float32", [5, 6], [("label", ["x"])]⟩ :=
  (claim_C5 ⟨[]⟩ "f.h5" "image" ⟨[1, 2], [5, 6]⟩ ["x"]).1 rfl

/-- Claim C6: setup_hdf5_file ensures the file exists and, when the dataset is
absent, creates it with exactly the given shape, chunk shape one unit along
the leading axis, and float32 elements; on an existing dataset of the same
shape (and the float32 dtype this module always uses) it is a no-op returning
the state unchanged; on an existing dataset of a different shape it is an
error. -/
theorem claim_C6 (s : H5State) (fp name : String) (shape : List Nat) :
    (getItem s fp name = none →
      setup_hdf5_file s fp name shape =
        .ok ⟨setA fp (setA name (.dset (newDataset shape))
          ((lookupA fp s.files).getD [])) s.files⟩ ∧
      ∀ s2, setup_hdf5_file s fp name shape = .ok s2 →
        getDataset s2 fp name = some (newDataset shape)) ∧
    (∀ g d, lookupA fp s.files = some g → lookupA name g = some (.dset d) →
      d.shape = shape → d.dtype = "float32" →
      setup_hdf5_file s fp name shape = .ok s) ∧
    (∀ g d, lookupA fp s.files = some g → lookupA name g = some (.dset d) →
      d.shape ≠ shape →
      setup_hdf5_file s fp name shape = .error .shapeMismatch) := by
  refine ⟨?_, ?_, ?_⟩
  · intro h
    have hnone : lookupA name ((lookupA fp s.files).getD []) = none := by
      unfold getItem at h
      cases hf : lookupA fp s.files with
      | none => simp [lookupA]
      | some g => rw [hf] at h; simpa using h
    have heq : setup_hdf5_file s fp name shape =
        .ok ⟨setA fp (setA name (.dset (newDataset shape))
          ((lookupA fp s.files).getD [])) s.files⟩ := by
      simp [setup_hdf5_file, require_dataset, hnone, newDataset]
    refine ⟨heq, fun s2 h2 => ?_⟩
    rw [heq] at h2
    injection h2 with h2
    subst h2
    simp [getDataset, getItem, lookupA_setA_self]
  · intro g d hf hd hshape hdtype
    have : setA fp g s.files = s.files := setA_self_of_lookupA fp g s.files hf
    simp [setup_hdf5_file, require_dataset, hf, hd, hshape, hdtype, this]
  · intro g d hf hd hshape
    simp [setup_hdf5_file, require_dataset, hf, hd, hshape]

/-- Claim C6, witness: setting up a dataset of shape 2 by 3 in a fresh state
creates the file and the zero-filled float32 dataset with chunks 1 by 3. -/
theorem claim_C6_witness :
    setup_hdf5_file ⟨[]⟩ "f.h5" "dset" [2, 3] =
      .ok ⟨setA "f.h5" (setA "dset" (.dset (newDataset [2, 3]))
        ((lookupA "f.h5" (⟨[]⟩ : H5State).files).getD [])) (⟨[]⟩ : H5State).files⟩ :=
  ((claim_C6 ⟨[]⟩ "f.h5" "dset" [2, 3]).1 rfl).1

/-- Claim C7, round trip: writing a float32-representable array (elements are
stored bit patterns) and a byte-string label array to a fresh file and reading
the dataset back yields the array bit-identical, and the decoded label
attribute equals the original label strings. -/
theorem claim_C7 (s : H5State) (fp name : String) (arr : NpArray) (label : List String)
    (h : lookupA fp s.files = none) :
    readData (write_data_and_label s fp name arr label).2 fp name = some arr.data ∧
    readAttr (write_data_and_label s fp name arr label).2 fp name "label" = some label := by
  have hg := getDataset_write_fresh s fp name arr label h
  constructor
  · simp [readData, hg]
  · simp [readAttr, hg, lookupA]

/-- Claim C7, witness: a one-element array and the label cat survive the round
trip. -/
theorem claim_C7_witness :
    readData (write_data_and_label ⟨[]⟩ "f.h5" "img" ⟨[1], [7]⟩ ["cat"]).2 "f.h5" "img" =
        some [7] ∧
    readAttr (write_data_and_label ⟨[]⟩ "f.h5" "img" ⟨[1], [7]⟩ ["cat"]).2 "f.h5" "img"
        "label" = some ["cat"] :=
  claim_C7 ⟨[]⟩ "f.h5" "img" ⟨[1], [7]⟩ ["cat"] rfl

/-- Claim C8: writing twice with arrays of the same shape leaves the second
write as the content read back (full overwrite); a write never alters the
shape or the chunking of an existing dataset, whether it succeeds or fails;
and a write whose array shape differs from the shape of the existing dataset
fails with the shape error of the container library, leaving the state
unchanged. -/
theorem claim_C8 (s : H5State) (fp name : String) (arr1 arr2 arr : NpArray)
    (l1 l2 l : List String) :
    (lookupA fp s.files = none → arr2.shape = arr1.shape →
      readData (write_data_and_label (write_data_and_label s fp name arr1 l1).2
          fp name arr2 l2).2 fp name = some arr2.data) ∧
    (∀ d d2, getDataset s fp name = some d →
      getDataset (write_data_and_label s fp name arr l).2 fp name = some d2 →
      d2.shape = d.shape ∧ d2.chunks = d.chunks) ∧
    (∀ d, getDataset s fp name = some d → arr.shape ≠ d.shape →
      (write_data_and_label s fp name arr l).1 = .error .shapeMismatch ∧
      (write_data_and_label s fp name arr l).2 = s) := by
  refine ⟨?_, ?_, ?_⟩
  · intro h hsh
    have h1 := write_fresh s fp name arr1 l1 h
    set d1 : Dataset := ⟨arr1.shape, 1 :: arr1.shape.drop 1, "float32",
      arr1.data, [("label", l1)]⟩ with hd1
    have hf1 : lookupA fp (write_data_and_label s fp name arr1 l1).2.files =
        some [(name, .dset d1)] := by
      rw [h1]
      simp [lookupA_setA_self]
    have hd1m : lookupA name [(name, H5Item.dset d1)] = some (.dset d1) := by
      simp [lookupA]
    have h2 := write_existing (write_data_and_label s fp name arr1 l1).2 fp name arr2 l2
      [(name, .dset d1)] d1 hf1 hd1m (by rw [hd1]; exact hsh)
    rw [h2]
    simp [readData, getDataset, getItem, lookupA_setA_self]
  · intro d d2 hd hd2
    obtain ⟨g, hf, hg⟩ := (getDataset_iff s fp name d).mp hd
    by_cases hs : arr.shape = d.shape
    · rw [write_existing s fp name arr l g d hf hg hs] at hd2
      simp [getDataset, getItem, lookupA_setA_self] at hd2
      rw [← hd2]
      exact ⟨rfl, rfl⟩
    · rw [write_mismatch s fp name arr l g d hf hg hs] at hd2
      rw [hd] at hd2
      injection hd2 with hd2
      rw [← hd2]
      exact ⟨rfl, rfl⟩
  · intro d hd hs
    obtain ⟨g, hf, hg⟩ := (getDataset_iff s fp name d).mp hd
    rw [write_mismatch s fp name arr l g d hf hg hs]
    exact ⟨rfl, rfl⟩

/-- Claim C8, witness: writing a shape 3 array into an existing shape 2
dataset is the shape error and leaves the state unchanged. -/
theorem claim_C8_witness :
    (write_data_and_label ⟨[("f", [("img", .dset (newDataset [2]))])]⟩ "f" "img"
        ⟨[3], [0, 0, 0]⟩ ["x"]).1 = .error .shapeMismatch ∧
    (write_data_and_label ⟨[("f", [("img", .dset (newDataset [2]))])]⟩ "f" "img"
        ⟨[3], [0, 0, 0]⟩ ["x"]).2 = ⟨[("f", [("img", .dset (newDataset [2]))])]⟩ :=
  (claim_C8 ⟨[("f", [("img", .dset (newDataset [2]))])]⟩ "f" "img"
      ⟨[3], [0, 0, 0]⟩ ⟨[3], [0, 0, 0]⟩ ⟨[3], [0, 0, 0]⟩ ["x"] ["x"] ["x"]).2.2
    (newDataset [2]) rfl (by decide)

/-- Claim C9: for a dataset with attributes, the printer output consists of
the banner, the dataset header lines, the attributes header, and then, for
each attribute in order, a line with its name, shape and element type,
followed by the line of its decoded values exactly when its element count is
strictly below 10 (and no values line otherwise), followed by the lines of
the remaining group items. -/
theorem claim_C9 (indent : Nat) (name : String) (d : Dataset) (rest : H5Group)
    (hattrs : d.attrs ≠ []) :
    print_hdf5_structure ((name, .dset d) :: rest) indent =
      "HDF5 File Structure:" :: (sp indent ++ "dataset:")
        :: (sp (indent + 4) ++ name ++ " (shape: " ++ shapeTupleRepr d.shape
            ++ ", dtype: " ++ d.dtype ++ ")")
        :: ((sp indent ++ "attributes:")
          :: d.attrs.flatMap (fun a =>
            (sp (indent + 4) ++ a.1 ++ ": (shape=" ++ shapeTupleRepr [a.2.length]
                ++ ", dtype=" ++ bytesDtype a.2 ++ ")")
              :: (if a.2.length < 10 then
                    [sp (indent + 4) ++ "values: " ++ pyListRepr a.2]
                  else []))) ++ itemLines indent rest := by
  have hlen : d.attrs.length > 0 := by
    cases hh : d.attrs with
    | nil => exact absurd hh hattrs
    | cons a b => simp
  simp [print_hdf5_structure, itemLines, datasetLines, hlen, attrLines_flatMap]

/-- Claim C9, witness: a dataset with a 1-element attribute (values printed)
and a 10-element attribute (values not printed). -/
theorem claim_C9_witness :
    print_hdf5_structure [("image", .dset ⟨[1], [1], "float32", [0],
        [("label", ["x"]),
         ("big", ["a", "b", "c", "d", "e", "f", "g", "h", "i", "j"])]⟩)] 2 =
      "HDF5 File Structure:" :: (sp 2 ++ "dataset:")
        :: (sp (2 + 4) ++ "image" ++ " (shape: " ++ shapeTupleRepr [1]
            ++ ", dtype: " ++ "float32" ++ ")")
        :: ((sp 2 ++ "attributes:")
          :: ([("label", ["x"]),
               ("big", ["a", "b", "c", "d", "e", "f", "g", "h", "i", "j"])] :
                List (String × List String)).flatMap (fun a =>
            (sp (2 + 4) ++ a.1 ++ ": (shape=" ++ shapeTupleRepr [a.2.length]
                ++ ", dtype=" ++ bytesDtype a.2 ++ ")")
              :: (if a.2.length < 10 then
                    [sp (2 + 4) ++ "values: " ++ pyListRepr a.2]
                  else []))) ++ itemLines 2 [] :=
  claim_C9 2 "image" ⟨[1], [1], "float32", [0],
    [("label", ["x"]), ("big", ["a", "b", "c", "d", "e", "f", "g", "h", "i", "j"])]⟩ []
    (by simp)

/-- Claim C10: when the file exists but holds no dataset of the given name,
write_data_and_label raises the lookup error (KeyError from the dataset
access) and does not create the dataset: the on-disk state is unchanged, and
the setup step runs only when the file itself is absent. -/
theorem claim_C10 (s : H5State) (fp name : String) (arr : NpArray)
    (label : List String) (g : H5Group)
    (hf : lookupA fp s.files = some g) (hd : lookupA name g = none) :
    (write_data_and_label s fp name arr label).1 = .error .keyError ∧
    (write_data_and_label s fp name arr label).2 = s ∧
    getDataset (write_data_and_label s fp name arr label).2 fp name = none := by
  rw [write_keyerror s fp name arr label g hf hd]
  refine ⟨rfl, rfl, ?_⟩
  simp [getDataset, getItem, hf, hd]

/-- Claim C10, witness: writing into an existing empty file is the lookup
error and creates nothing. -/
theorem claim_C10_witness :
    (write_data_and_label ⟨[("f", [])]⟩ "f" "img" ⟨[1], [0]⟩ ["x"]).1 =
        .error .keyError ∧
    (write_data_and_label ⟨[("f", [])]⟩ "f" "img" ⟨[1], [0]⟩ ["x"]).2 = ⟨[("f", [])]⟩ ∧
    getDataset (write_data_and_label ⟨[("f", [])]⟩ "f" "img" ⟨[1], [0]⟩ ["x"]).2 "f"
        "img" = none :=
  claim_C10 ⟨[("f", [])]⟩ "f" "img" ⟨[1], [0]⟩ ["x"] [] rfl rfl
